import Mathlib

/-!
Verification of the skyhook RPC client (src/skyhook/client.py) against its
natural-language specification.

The Python code is shallowly embedded: Python values that can occur in the
JSON payloads are an inductive type, HTTP traffic is modelled by an explicit
server oracle (a function from requests to parsed-JSON responses) together
with the trace of requests a call issues, and Python exceptions are Except.
-/

/-- A Python value as it can appear in a client payload or a parsed JSON
response: None, booleans, integers, strings, lists, dicts with string keys,
and (since Python dicts can hold any object) a function object identified by
its dunder name attribute. -/
inductive PyVal where
  | none : PyVal
  | bool : Bool → PyVal
  | int : Int → PyVal
  | str : String → PyVal
  | list : List PyVal → PyVal
  | dict : List (String × PyVal) → PyVal
  | callable : String → PyVal

/-- HTTP methods used by the two protocols: requests.post for the direct
protocol, requests.put for the indirection protocol. -/
inductive Method where
  | post : Method
  | put : Method
  deriving Repr, DecidableEq

/-- One HTTP request as issued through the requests library: method, url,
headers and the JSON body. -/
structure Request where
  method : Method
  url : String
  headers : List (String × String)
  body : PyVal

/-- The observable outcome of one execute call: the requests it sent in
order, the values it pretty-printed (echoed), and the Python value it
returned to the caller. -/
structure ExecResult where
  requests : List Request
  echoed : List PyVal
  ret : PyVal

/-- Python callable(command) test followed by taking the dunder name:
a function object resolves to its name, anything else is left as is
(client.py lines 94-95). -/
def resolveCommand : PyVal → PyVal
  | .callable n => .str n
  | v => v

/-- Python membership test of an arbitrary object in a list of strings:
true exactly when the object is a string equal to some element. -/
def PyVal.inStrList : PyVal → List String → Bool
  | .str s, l => l.contains s
  | _, _ => false

/-- Python dict.get(key): the stored value, or None when the key is absent.
Calling .get on a non-dict (in particular on None) raises AttributeError. -/
def pyGet (v : PyVal) (key : String) : Except String PyVal :=
  match v with
  | .dict entries => .ok ((entries.lookup key).getD .none)
  | _ => .error "AttributeError"

/-- State of the base Client (client.py lines 12-23): host address, port and
the two private echo flags set in the constructor. -/
structure Client where
  host_address : String
  port : Nat
  echo_execution : Bool
  echo_payload : Bool
  deriving Repr, DecidableEq

/-- Client.__init__ (client.py lines 16-23). -/
def Client.init : Client :=
  { host_address := "127.0.0.1", port := 65500,
    echo_execution := true, echo_payload := true }

/-- Client.__create_payload (client.py lines 109-122): the direct-protocol
payload dict mapping FunctionName to the command and Parameters to the
parameter mapping. -/
def Client.create_payload (command : PyVal) (parameters : List (String × PyVal)) : PyVal :=
  .dict [("FunctionName", command), ("Parameters", .dict parameters)]

/-- Client.execute (client.py lines 69-107): resolve a callable to its name,
build the direct-protocol payload, POST it to the host url, echo payload and
response according to the flags, and fall off the end of the function (the
return statement is commented out in the source), so the caller receives
Python None. -/
def Client.execute (c : Client) (server : Request → PyVal) (command : PyVal)
    (parameters : List (String × PyVal)) : ExecResult :=
  let command := resolveCommand command
  let url := "http://" ++ c.host_address ++ ":" ++ Nat.repr c.port
  let payload := Client.create_payload command parameters
  let req : Request := { method := .post, url := url, headers := [], body := payload }
  let response := server req
  { requests := [req],
    echoed := (if c.echo_payload then [payload] else [])
      ++ (if c.echo_execution then [response] else []),
    ret := .none }

/-- Client.is_host_online (client.py lines 59-66): call execute with the
fixed command is_online and an empty mapping, then read .get on whatever
execute returned. -/
def Client.is_host_online (c : Client) (server : Request → PyVal) :
    Except String PyVal :=
  let r := c.execute server (.str "is_online") []
  pyGet r.ret "Success"

/-- Drop leading spaces of a character stream. -/
def skipSpaces : List Char → List Char
  | ' ' :: rest => skipSpaces rest
  | cs => cs

/-- Numeric value of a decimal digit character. -/
def digitVal (c : Char) : Nat := c.toNat - 48

/-- The natural number written by a list of decimal digit characters. -/
def natOfDigits (ds : List Char) : Nat :=
  ds.foldl (fun acc c => 10 * acc + digitVal c) 0

/-- Scan the body of a quoted string literal up to the closing quote
character q; backslash escapes are not part of the modelled literal
subset, so a backslash makes the scan fail. -/
def scanStr (q : Char) : List Char → Option (List Char × List Char)
  | [] => Option.none
  | c :: rest =>
    if c = q then some ([], rest)
    else if c = '\\' then Option.none
    else match scanStr q rest with
      | some (content, rem) => some (c :: content, rem)
      | Option.none => Option.none

/-- After a keyword literal such as True, the next character must not
continue an identifier. -/
def identBoundary : List Char → Bool
  | [] => true
  | c :: _ => !(c.isAlphanum || c = '_')

mutual

/-- One literal of the modelled subset: an integer (optionally negated), a
quoted string, True, False, None, or a bracketed list of literals. Returns
the parsed value and the unconsumed remainder. Fuel bounds the recursion. -/
def parseLit : Nat → List Char → Option (PyVal × List Char)
  | 0, _ => Option.none
  | Nat.succ fuel, cs =>
    match skipSpaces cs with
    | '[' :: rest => parseElems fuel rest []
    | '\'' :: rest =>
      (match scanStr '\'' rest with
       | some (content, rem) => some (.str (String.mk content), rem)
       | Option.none => Option.none)
    | '"' :: rest =>
      (match scanStr '"' rest with
       | some (content, rem) => some (.str (String.mk content), rem)
       | Option.none => Option.none)
    | '-' :: rest =>
      (match rest.span Char.isDigit with
       | ([], _) => Option.none
       | (ds, rem) => some (.int (-(natOfDigits ds : Int)), rem))
    | 'T' :: 'r' :: 'u' :: 'e' :: rest =>
      if identBoundary rest then some (.bool true, rest) else Option.none
    | 'F' :: 'a' :: 'l' :: 's' :: 'e' :: rest =>
      if identBoundary rest then some (.bool false, rest) else Option.none
    | 'N' :: 'o' :: 'n' :: 'e' :: rest =>
      if identBoundary rest then some (.none, rest) else Option.none
    | c :: rest =>
      if c.isDigit then
        match (c :: rest).span Char.isDigit with
        | (ds, rem) => some (.int (natOfDigits ds : Int), rem)
      else Option.none
    | [] => Option.none

/-- Elements of a bracketed list, accumulated until the closing bracket;
tolerates a trailing comma as Python does. -/
def parseElems : Nat → List Char → List PyVal → Option (PyVal × List Char)
  | 0, _, _ => Option.none
  | Nat.succ fuel, cs, acc =>
    match skipSpaces cs with
    | ']' :: rest => some (.list acc.reverse, rest)
    | cs2 =>
      match parseLit fuel cs2 with
      | Option.none => Option.none
      | some (v, rem) =>
        match skipSpaces rem with
        | ',' :: rest => parseElems fuel rest (v :: acc)
        | ']' :: rest => some (.list (v :: acc).reverse, rest)
        | _ => Option.none

end

/-- The eval call in UnrealClient.__get_response, modelled as the spec
describes it (interpret the textual return value as a structured literal,
spec section 4.4 step 5): parse the whole string as one literal of the
modelled subset, yielding nothing when the text is not such a literal. -/
def pyEvalLit (s : String) : Option PyVal :=
  match parseLit (s.length + 1) s.toList with
  | some (v, rem) => if (skipSpaces rem).isEmpty then some v else Option.none
  | Option.none => Option.none

/-- Modelled from the spec: the attribute names dir() reports for every
Python class (inherited from object), present in dir(ServerCommands)
whatever the registry enumerates; the spec notes the privileged-command
check is reflection over the registry class's attributes. -/
def universalClassAttributeNames : List String :=
  ["__class__", "__delattr__", "__dict__", "__dir__", "__doc__", "__eq__",
   "__format__", "__ge__", "__getattribute__", "__gt__", "__hash__",
   "__init__", "__init_subclass__", "__le__", "__lt__", "__module__",
   "__ne__", "__new__", "__reduce__", "__reduce_ex__", "__repr__",
   "__setattr__", "__sizeof__", "__str__", "__subclasshook__", "__weakref__"]

/-- Modelled from the spec: dir(ServerCommands), where ServerCommands is the
fixed registry class from the constants module, which is not part of src.
dir() yields the names the class enumerates plus the universal class
attribute names; the enumerated names are a parameter because the constants
module is absent. -/
def dirServerCommands (serverCommandNames : List String) : List String :=
  serverCommandNames ++ universalClassAttributeNames

/-- State of UnrealClient (client.py lines 168-175): the base-client state
plus the two object paths and the fixed headers. -/
structure UnrealClient where
  host_address : String
  port : Nat
  echo_execution : Bool
  echo_payload : Bool
  command_object_path : String
  server_command_object_path : String
  headers : List (String × String)

/-- UnrealClient.__init__ (client.py lines 168-175): base-client defaults,
then the two well-known object paths and the fixed headers. The port value
Ports.unreal lives in the constants module, which is not part of src, so it
is a parameter here. -/
def UnrealClient.init (unrealPort : Nat) : UnrealClient :=
  { host_address := Client.init.host_address,
    port := unrealPort,
    echo_execution := true, echo_payload := true,
    command_object_path := "/Engine/PythonTypes.Default__SkyHookCommands",
    server_command_object_path := "/Engine/PythonTypes.Default__SkyHookServerCommands",
    headers := [("Content-type", "application/json"), ("Accept", "text/plain")] }

/-- UnrealClient.set_command_object_path (client.py lines 209-217). -/
def UnrealClient.set_command_object_path (c : UnrealClient) (path : String) :
    UnrealClient :=
  { c with command_object_path := path }

/-- UnrealClient.__create_payload (client.py lines 241-249): the
indirection-protocol payload dict binding ObjectPath, FunctionName,
Parameters and GenerateTransaction, the last always true. -/
def UnrealClient.create_payload (command : PyVal) (parameters : List (String × PyVal))
    (object_path : String) : PyVal :=
  .dict [("ObjectPath", .str object_path), ("FunctionName", command),
         ("Parameters", .dict parameters), ("GenerateTransaction", .bool true)]

/-- The url both UnrealClient.execute and UnrealClient.__get_response build
(client.py lines 188 and 228). -/
def UnrealClient.callUrl (c : UnrealClient) : String :=
  "http://" ++ c.host_address ++ ":" ++ Nat.repr c.port ++ "/remote/object/call"

/-- The try block of UnrealClient.__get_response (client.py lines 233-237):
read .get on the response, eval the text, and on success replace the whole
response by a dict holding only the coerced return value; any failure
(.get on a non-dict, eval of a non-string, eval of a non-literal) is caught
by the bare except and leaves the response unchanged. -/
def coerceReply (response : PyVal) : PyVal :=
  match response with
  | .dict entries =>
    (match entries.lookup "ReturnValue" with
     | some (.str s) =>
       (match pyEvalLit s with
        | some v => .dict [("ReturnValue", v)]
        | Option.none => response)
     | _ => response)
  | _ => response

/-- The get_reply request UnrealClient.__get_response issues (client.py
lines 228-231): a PUT of the get_reply payload with no parameters,
addressed to the given object path. -/
def getReplyRequest (c : UnrealClient) (object_path : String) : Request :=
  { method := .put, url := c.callUrl, headers := c.headers,
    body := UnrealClient.create_payload (.str "get_reply") [] object_path }

/-- UnrealClient.__get_response (client.py lines 227-239): PUT the get_reply
payload to the same endpoint and coerce the textual return value; also
exposes the request it sent. -/
def UnrealClient.get_response (c : UnrealClient) (server : Request → PyVal)
    (object_path : String) : PyVal × Request :=
  let req := getReplyRequest c object_path
  let response := server req
  (coerceReply response, req)

/-- UnrealClient.execute (client.py lines 177-207): build the payload
addressed to the server-command object path when the command is in
dir(ServerCommands) and to the (possibly overridden) command object path
otherwise, PUT it and discard the immediate result, fetch the reply from
the same object path, echo per flags, and return the reply. Note the
command is used as given: this execute has no callable-to-name
resolution. -/
def UnrealClient.execute (serverCommandNames : List String) (c : UnrealClient)
    (server : Request → PyVal) (command : PyVal)
    (parameters : List (String × PyVal)) : ExecResult :=
  let pp :=
    if command.inStrList (dirServerCommands serverCommandNames) then
      (UnrealClient.create_payload command parameters c.server_command_object_path,
       c.server_command_object_path)
    else
      (UnrealClient.create_payload command parameters c.command_object_path,
       c.command_object_path)
  let payload := pp.1
  let used_object_path := pp.2
  let req1 : Request :=
    { method := .put, url := c.callUrl, headers := c.headers, body := payload }
  let _ := server req1
  let res := c.get_response server used_object_path
  { requests := [req1, res.2],
    echoed := (if c.echo_payload then [payload] else [])
      ++ (if c.echo_execution then [res.1] else []),
    ret := res.1 }

/-- C4: For every command name and every parameter mapping, the
direct-protocol payload built by the base client equals the mapping with
FunctionName bound to the command and Parameters bound to the parameters,
exactly. -/
theorem direct_payload_shape (command : PyVal) (parameters : List (String × PyVal)) :
    Client.create_payload command parameters
      = .dict [("FunctionName", command), ("Parameters", .dict parameters)] := rfl

/-- C6: For every command and parameter mapping, the base (direct-protocol)
client's execute returns Python None to the caller, while the server
response is computed and echoed exactly when the echo-execution flag is
set. -/
theorem base_execute_returns_nothing (c : Client) (server : Request → PyVal)
    (command : PyVal) (parameters : List (String × PyVal)) :
    (c.execute server command parameters).ret = .none
    ∧ (c.execute server command parameters).echoed
        = (if c.echo_payload
            then [Client.create_payload (resolveCommand command) parameters] else [])
          ++ (if c.echo_execution
              then [server { method := .post,
                             url := "http://" ++ c.host_address ++ ":" ++ Nat.repr c.port,
                             headers := [],
                             body := Client.create_payload (resolveCommand command) parameters }]
              else []) := ⟨rfl, rfl⟩

/-- C5: the code contradicts the claim and its own docstrings. Because
Client.execute's return statement is commented out, is_host_online calls
.get on None and raises AttributeError on every call, even when the server
answers with a true Success flag; the claim (and the docstrings promising a
dict from execute and a bool from is_host_online) say it returns the
success indicator. -/
theorem is_host_online_raises :
    Client.is_host_online Client.init (fun _ => .dict [("Success", .bool true)])
      = .error "AttributeError" := rfl

/-- The evaluator accepts the bracketed integer list of the spec's
round-trip example. -/
theorem pyEvalLit_list_example :
    pyEvalLit "[1, 2, 3]" = some (.list [.int 1, .int 2, .int 3]) := rfl

/-- The evaluator rejects the spec's non-literal example. -/
theorem pyEvalLit_not_literal : pyEvalLit "not a literal!" = Option.none := rfl

/-- A name carried by every Python class is in dir(ServerCommands) whatever
the registry enumerates. -/
theorem contains_dirServerCommands_of_universal (serverCommandNames : List String)
    (x : String) (h : x ∈ universalClassAttributeNames) :
    (dirServerCommands serverCommandNames).contains x = true :=
  List.elem_eq_true_of_mem (List.mem_append_right _ h)

/-- C1: for every command name, the indirection client's execute selects the
server-command object path when the name is in the server-command registry's
membership set (dir of the registry class) and the current, possibly
overridden, command object path otherwise, and the invocation request it
sends first carries the payload addressed to that path. -/
theorem execute_selects_object_path (serverCommandNames : List String)
    (c : UnrealClient) (server : Request → PyVal) (command : String)
    (parameters : List (String × PyVal)) :
    (UnrealClient.execute serverCommandNames c server (.str command) parameters).requests.head?
      = some { method := .put, url := c.callUrl, headers := c.headers,
               body := UnrealClient.create_payload (.str command) parameters
                 (if (dirServerCommands serverCommandNames).contains command
                  then c.server_command_object_path
                  else c.command_object_path) } := by
  by_cases hm : command ∈ dirServerCommands serverCommandNames <;>
    simp [UnrealClient.execute, PyVal.inStrList, hm]

/-- C2: after overriding the command object path with p, execute with a
non-privileged command issues exactly two PUTs, the invocation and the
get_reply fetch, both addressed to object path p, and the get_reply payload
carries an empty parameter mapping. -/
theorem override_path_used_for_both_calls (serverCommandNames : List String)
    (c : UnrealClient) (p : String) (server : Request → PyVal) (command : String)
    (parameters : List (String × PyVal))
    (h : (dirServerCommands serverCommandNames).contains command = false) :
    (UnrealClient.execute serverCommandNames (c.set_command_object_path p) server
        (.str command) parameters).requests
      = [{ method := .put, url := c.callUrl, headers := c.headers,
           body := .dict [("ObjectPath", .str p), ("FunctionName", .str command),
                          ("Parameters", .dict parameters),
                          ("GenerateTransaction", .bool true)] },
         { method := .put, url := c.callUrl, headers := c.headers,
           body := .dict [("ObjectPath", .str p), ("FunctionName", .str "get_reply"),
                          ("Parameters", .dict []),
                          ("GenerateTransaction", .bool true)] }] := by
  have hm : command ∉ dirServerCommands serverCommandNames := by simpa using h
  simp [UnrealClient.execute, PyVal.inStrList, UnrealClient.set_command_object_path, hm,
        UnrealClient.get_response, getReplyRequest, UnrealClient.create_payload,
        UnrealClient.callUrl]

/-- C2 witness: a concrete override with a non-privileged command. -/
theorem override_path_used_for_both_calls_witness :
    ((dirServerCommands []).contains "spawn_cube" = false)
    ∧ (UnrealClient.execute [] ((UnrealClient.init 0).set_command_object_path "/Game/P") (fun _ => .dict [])
        (.str "spawn_cube") []).requests
      = [{ method := .put, url := (UnrealClient.init 0).callUrl,
           headers := (UnrealClient.init 0).headers,
           body := .dict [("ObjectPath", .str "/Game/P"), ("FunctionName", .str "spawn_cube"),
                          ("Parameters", .dict []),
                          ("GenerateTransaction", .bool true)] },
         { method := .put, url := (UnrealClient.init 0).callUrl,
           headers := (UnrealClient.init 0).headers,
           body := .dict [("ObjectPath", .str "/Game/P"), ("FunctionName", .str "get_reply"),
                          ("Parameters", .dict []),
                          ("GenerateTransaction", .bool true)] }] :=
  ⟨by decide,
   override_path_used_for_both_calls [] (UnrealClient.init 0) "/Game/P" (fun _ => .dict [])
     "spawn_cube" [] (by decide)⟩

/-- C3: for a get_reply response whose textual return value is the literal
text of a bracketed integer list, the unwrapped result's return value is the
structured list; for one whose text is not a literal, the return-value field
keeps the original string unchanged, and in both cases the coercion is a
total function of the response, so no failure reaches the caller. -/
theorem get_reply_coercion_round_trip (c : UnrealClient) (object_path : String)
    (rest : List (String × PyVal)) (server1 server2 : Request → PyVal)
    (h1 : server1 (getReplyRequest c object_path)
            = .dict (("ReturnValue", .str "[1, 2, 3]") :: rest))
    (h2 : server2 (getReplyRequest c object_path)
            = .dict (("ReturnValue", .str "not a literal!") :: rest)) :
    (c.get_response server1 object_path).1
        = .dict [("ReturnValue", .list [.int 1, .int 2, .int 3])]
    ∧ (c.get_response server2 object_path).1
        = .dict (("ReturnValue", .str "not a literal!") :: rest) := by
  constructor
  · show coerceReply (server1 (getReplyRequest c object_path)) = _
    rw [h1]; rfl
  · show coerceReply (server2 (getReplyRequest c object_path)) = _
    rw [h2]; rfl

/-- C3 witness: concrete servers answering with the two example texts. -/
theorem get_reply_coercion_round_trip_witness :
    ((fun _ : Request => PyVal.dict [("ReturnValue", .str "[1, 2, 3]"), ("Success", .bool true)])
        (getReplyRequest (UnrealClient.init 0) "/Game/P")
      = .dict (("ReturnValue", .str "[1, 2, 3]") :: [("Success", .bool true)]))
    ∧ ((fun _ : Request => PyVal.dict [("ReturnValue", .str "not a literal!"), ("Success", .bool true)])
        (getReplyRequest (UnrealClient.init 0) "/Game/P")
      = .dict (("ReturnValue", .str "not a literal!") :: [("Success", .bool true)]))
    ∧ ((UnrealClient.init 0).get_response
          (fun _ => .dict [("ReturnValue", .str "[1, 2, 3]"), ("Success", .bool true)]) "/Game/P").1
        = .dict [("ReturnValue", .list [.int 1, .int 2, .int 3])]
    ∧ ((UnrealClient.init 0).get_response
          (fun _ => .dict [("ReturnValue", .str "not a literal!"), ("Success", .bool true)]) "/Game/P").1
        = .dict (("ReturnValue", .str "not a literal!") :: [("Success", .bool true)]) :=
  ⟨rfl, rfl,
   (get_reply_coercion_round_trip (UnrealClient.init 0) "/Game/P" [("Success", .bool true)]
      (fun _ => .dict [("ReturnValue", .str "[1, 2, 3]"), ("Success", .bool true)])
      (fun _ => .dict [("ReturnValue", .str "not a literal!"), ("Success", .bool true)])
      rfl rfl).1,
   (get_reply_coercion_round_trip (UnrealClient.init 0) "/Game/P" [("Success", .bool true)]
      (fun _ => .dict [("ReturnValue", .str "[1, 2, 3]"), ("Success", .bool true)])
      (fun _ => .dict [("ReturnValue", .str "not a literal!"), ("Success", .bool true)])
      rfl rfl).2⟩

/-- C9: when coercion of the textual return value succeeds, the value
returned to the caller is a dict holding only the coerced return-value
field, every other field of the get_reply response being discarded; when
coercion fails, the full original response survives unchanged. -/
theorem coercion_replaces_or_preserves (c : UnrealClient) (object_path : String)
    (server1 server2 : Request → PyVal) (entries1 entries2 : List (String × PyVal))
    (s1 s2 : String) (v : PyVal)
    (h1 : server1 (getReplyRequest c object_path) = .dict entries1)
    (hl1 : entries1.lookup "ReturnValue" = some (.str s1))
    (he1 : pyEvalLit s1 = some v)
    (h2 : server2 (getReplyRequest c object_path) = .dict entries2)
    (hl2 : entries2.lookup "ReturnValue" = some (.str s2))
    (he2 : pyEvalLit s2 = Option.none) :
    (c.get_response server1 object_path).1 = .dict [("ReturnValue", v)]
    ∧ (c.get_response server2 object_path).1 = .dict entries2 := by
  constructor
  · show coerceReply (server1 (getReplyRequest c object_path)) = _
    rw [h1]
    simp only [coerceReply, hl1, he1]
  · show coerceReply (server2 (getReplyRequest c object_path)) = _
    rw [h2]
    simp only [coerceReply, hl2, he2]

/-- C9 witness: a get_reply response carrying Success and Time fields next
to the return value; they are discarded on successful coercion and kept on
failure. -/
theorem coercion_replaces_or_preserves_witness :
    ((fun _ : Request => PyVal.dict [("ReturnValue", .str "[1, 2]"), ("Success", .bool true), ("Time", .str "09:43:18")])
        (getReplyRequest (UnrealClient.init 0) "/Game/P")
      = .dict [("ReturnValue", .str "[1, 2]"), ("Success", .bool true), ("Time", .str "09:43:18")])
    ∧ (List.lookup "ReturnValue" [("ReturnValue", PyVal.str "[1, 2]"), ("Success", .bool true), ("Time", .str "09:43:18")]
        = some (.str "[1, 2]"))
    ∧ (pyEvalLit "[1, 2]" = some (.list [.int 1, .int 2]))
    ∧ ((fun _ : Request => PyVal.dict [("ReturnValue", .str "nope!"), ("Success", .bool true)])
        (getReplyRequest (UnrealClient.init 0) "/Game/P")
      = .dict [("ReturnValue", .str "nope!"), ("Success", .bool true)])
    ∧ (List.lookup "ReturnValue" [("ReturnValue", PyVal.str "nope!"), ("Success", .bool true)]
        = some (.str "nope!"))
    ∧ (pyEvalLit "nope!" = Option.none)
    ∧ ((UnrealClient.init 0).get_response
          (fun _ => .dict [("ReturnValue", .str "[1, 2]"), ("Success", .bool true), ("Time", .str "09:43:18")]) "/Game/P").1
        = .dict [("ReturnValue", .list [.int 1, .int 2])]
    ∧ ((UnrealClient.init 0).get_response
          (fun _ => .dict [("ReturnValue", .str "nope!"), ("Success", .bool true)]) "/Game/P").1
        = .dict [("ReturnValue", .str "nope!"), ("Success", .bool true)] :=
  ⟨rfl, rfl, rfl, rfl, rfl, rfl,
   (coercion_replaces_or_preserves (UnrealClient.init 0) "/Game/P"
      (fun _ => .dict [("ReturnValue", .str "[1, 2]"), ("Success", .bool true), ("Time", .str "09:43:18")])
      (fun _ => .dict [("ReturnValue", .str "nope!"), ("Success", .bool true)])
      [("ReturnValue", .str "[1, 2]"), ("Success", .bool true), ("Time", .str "09:43:18")]
      [("ReturnValue", .str "nope!"), ("Success", .bool true)]
      "[1, 2]" "nope!" (.list [.int 1, .int 2])
      rfl rfl rfl rfl rfl rfl).1,
   (coercion_replaces_or_preserves (UnrealClient.init 0) "/Game/P"
      (fun _ => .dict [("ReturnValue", .str "[1, 2]"), ("Success", .bool true), ("Time", .str "09:43:18")])
      (fun _ => .dict [("ReturnValue", .str "nope!"), ("Success", .bool true)])
      [("ReturnValue", .str "[1, 2]"), ("Success", .bool true), ("Time", .str "09:43:18")]
      [("ReturnValue", .str "nope!"), ("Success", .bool true)]
      "[1, 2]" "nope!" (.list [.int 1, .int 2])
      rfl rfl rfl rfl rfl rfl).2⟩

/-- Discriminating observable on a payload: whether its FunctionName entry
holds a string. -/
def functionNameIsStr (body : PyVal) : Bool :=
  match body with
  | .dict entries =>
    (match entries.lookup "FunctionName" with
     | some (.str _) => true
     | _ => false)
  | _ => false

/-- C7 counterexample: the indirection client's execute performs no
callable-to-name resolution, so calling it with a function object named
spawn_cube embeds the object itself in the payload, which therefore differs
from the payload built for the string spawn_cube. -/
theorem unreal_callable_payload_differs :
    (UnrealClient.execute [] (UnrealClient.init 0) (fun _ => .dict [])
        (.callable "spawn_cube") []).requests.map Request.body
      ≠ (UnrealClient.execute [] (UnrealClient.init 0) (fun _ => .dict [])
        (.str "spawn_cube") []).requests.map Request.body := by
  intro h
  exact absurd (congrArg (List.map functionNameIsStr) h) (by decide)

/-- C7 amended: for the base (direct-protocol) client, whose execute does
resolve a callable to its name before building the payload, calling execute
with a callable named spawn_cube behaves identically to calling it with the
string spawn_cube. -/
theorem base_execute_callable_matches_string (c : Client) (server : Request → PyVal)
    (parameters : List (String × PyVal)) :
    c.execute server (.callable "spawn_cube") parameters
      = c.execute server (.str "spawn_cube") parameters := rfl

/-- Lower-case a header name character by character, for the
case-insensitive header-name comparison HTTP prescribes. -/
def asciiLower (s : String) : String := String.mk (s.toList.map Char.toLower)

/-- The request shape the spec prescribes for every indirection-protocol
call, stated from the spec's wire-format section for comparison with the
requests the code sends: a PUT to the remote-object-call endpoint with the
JSON content-type and plain-text accept headers (header names compared
case-insensitively, as HTTP prescribes), whose body binds ObjectPath,
FunctionName, Parameters and GenerateTransaction, the last always true. -/
def specIndirectionCallShape (host : String) (port : Nat) (r : Request) : Prop :=
  r.method = .put
  ∧ r.url = "http://" ++ host ++ ":" ++ Nat.repr port ++ "/remote/object/call"
  ∧ r.headers.map (fun kv => (asciiLower kv.1, kv.2))
      = [("content-type", "application/json"), ("accept", "text/plain")]
  ∧ ∃ object_path function_name ps,
      r.body = .dict [("ObjectPath", .str object_path),
                      ("FunctionName", .str function_name),
                      ("Parameters", .dict ps),
                      ("GenerateTransaction", .bool true)]

/-- Any request built from the client's url, headers and payload builder has
the spec's indirection-call shape, provided the headers are the ones the
constructor installs. -/
theorem shape_of_client_call (c : UnrealClient) (cmd : String)
    (params : List (String × PyVal)) (path : String)
    (hh : c.headers = [("Content-type", "application/json"), ("Accept", "text/plain")]) :
    specIndirectionCallShape c.host_address c.port
      { method := .put, url := c.callUrl, headers := c.headers,
        body := UnrealClient.create_payload (.str cmd) params path } :=
  ⟨rfl, rfl, by simp only [hh]; decide, ⟨path, cmd, params, rfl⟩⟩

/-- C8: every request the indirection client's execute issues, the
invocation and the get_reply fetch alike, is a PUT to the
remote-object-call endpoint with the JSON content-type and plain-text
accept headers and a body binding ObjectPath, FunctionName, Parameters and
GenerateTransaction, the transaction flag always true. -/
theorem every_indirection_call_shape (serverCommandNames : List String)
    (c : UnrealClient) (server : Request → PyVal) (command : String)
    (parameters : List (String × PyVal))
    (hh : c.headers = [("Content-type", "application/json"), ("Accept", "text/plain")]) :
    List.Forall (specIndirectionCallShape c.host_address c.port)
      (UnrealClient.execute serverCommandNames c server (.str command) parameters).requests := by
  by_cases hm : command ∈ dirServerCommands serverCommandNames
  · have hreq : (UnrealClient.execute serverCommandNames c server (.str command) parameters).requests
        = [{ method := .put, url := c.callUrl, headers := c.headers,
             body := UnrealClient.create_payload (.str command) parameters c.server_command_object_path },
           { method := .put, url := c.callUrl, headers := c.headers,
             body := UnrealClient.create_payload (.str "get_reply") [] c.server_command_object_path }] := by
      simp [UnrealClient.execute, PyVal.inStrList, hm, UnrealClient.get_response, getReplyRequest]
    rw [hreq]
    exact ⟨shape_of_client_call c command parameters _ hh,
           shape_of_client_call c "get_reply" [] _ hh⟩
  · have hreq : (UnrealClient.execute serverCommandNames c server (.str command) parameters).requests
        = [{ method := .put, url := c.callUrl, headers := c.headers,
             body := UnrealClient.create_payload (.str command) parameters c.command_object_path },
           { method := .put, url := c.callUrl, headers := c.headers,
             body := UnrealClient.create_payload (.str "get_reply") [] c.command_object_path }] := by
      simp [UnrealClient.execute, PyVal.inStrList, hm, UnrealClient.get_response, getReplyRequest]
    rw [hreq]
    exact ⟨shape_of_client_call c command parameters _ hh,
           shape_of_client_call c "get_reply" [] _ hh⟩

/-- C8 witness: a concrete execute whose two requests both have the spec's
shape. -/
theorem every_indirection_call_shape_witness :
    ((UnrealClient.init 0).headers
        = [("Content-type", "application/json"), ("Accept", "text/plain")])
    ∧ List.Forall
        (specIndirectionCallShape (UnrealClient.init 0).host_address (UnrealClient.init 0).port)
        (UnrealClient.execute [] (UnrealClient.init 0) (fun _ => .dict [])
          (.str "spawn_cube") []).requests :=
  ⟨rfl,
   every_indirection_call_shape [] (UnrealClient.init 0) (fun _ => .dict [])
     "spawn_cube" [] rfl⟩

/-- C10: the privileged-command test is a lookup in dir of the registry
class, so a command name every Python class carries as an attribute, such as
the dunder init name, is routed by execute to the server-command object path
even when the registry does not enumerate it. -/
theorem dunder_command_routes_to_server_path (serverCommandNames : List String)
    (c : UnrealClient) (server : Request → PyVal) (parameters : List (String × PyVal))
    (_h : serverCommandNames.contains "__init__" = false) :
    (dirServerCommands serverCommandNames).contains "__init__" = true
    ∧ (UnrealClient.execute serverCommandNames c server (.str "__init__") parameters).requests.head?
        = some { method := .put, url := c.callUrl, headers := c.headers,
                 body := UnrealClient.create_payload (.str "__init__") parameters
                           c.server_command_object_path } := by
  have hx : "__init__" ∈ dirServerCommands serverCommandNames :=
    List.mem_append_right _ (by decide)
  exact ⟨List.elem_eq_true_of_mem hx,
         by simp [UnrealClient.execute, PyVal.inStrList, hx]⟩

/-- C10 witness: a registry enumerating no command at all still routes the
dunder init name to the server-command object path. -/
theorem dunder_command_routes_witness :
    (([] : List String).contains "__init__" = false)
    ∧ ((dirServerCommands []).contains "__init__" = true
       ∧ (UnrealClient.execute [] (UnrealClient.init 0) (fun _ => .dict [])
            (.str "__init__") []).requests.head?
          = some { method := .put, url := (UnrealClient.init 0).callUrl,
                   headers := (UnrealClient.init 0).headers,
                   body := UnrealClient.create_payload (.str "__init__") []
                             (UnrealClient.init 0).server_command_object_path }) :=
  ⟨rfl,
   dunder_command_routes_to_server_path [] (UnrealClient.init 0) (fun _ => .dict []) [] rfl⟩
